import Mathlib

/-!
Verification of the matrix-completion engine of the netflix-recommendation
repository: a shallow embedding in Lean 4 of the imputation models
(mean baseline, EM clustering, KNN user- and item-based, matrix
factorization), the evaluation harness, and the comparison runner,
together with proofs of the specified properties.

Modelling conventions:
* NumPy floating-point values are modelled as exact rationals; NaN (the
  missing-rating marker) is modelled as `Option.none`, so a matrix cell
  is an `Option ℚ` and a matrix is a list of row lists.
* External sklearn estimators (KNNImputer, GaussianMixture, NMF/SVD)
  are opaque to this repository; their fitted transforms are passed in
  as explicit function parameters ("oracles") and only the documented
  validation behaviour relevant to the claims is modelled.
* Exceptions are modelled with `Except String`.
-/

/-- A matrix cell: `none` models NumPy NaN (a missing rating), `some q`
an observed numeric value, modelled as an exact rational. -/
abbrev Cell := Option ℚ

/-- A rating matrix: a list of user rows, each a list of item cells.
Models a NumPy 2-D array whose NaN entries are `none`. -/
abbrev Mat := List (List Cell)

/-- Models `np.nanmean` over a 1-D slice: the mean of the observed
entries, or `none` (NaN, with a RuntimeWarning) when no entry is
observed. -/
def nanMean (l : List Cell) : Option ℚ :=
  let v := l.filterMap id
  if v.isEmpty then none else some (v.sum / v.length)

/-- Scalar rounding as performed by `np.round`: round half to even
(IEEE-754 banker's rounding). -/
def roundEven (q : ℚ) : ℤ :=
  let f := ⌊q⌋
  let r := q - f
  if r < 1/2 then f
  else if 1/2 < r then f + 1
  else if Even f then f else f + 1

/-- `np.round` on one cell; NaN propagates. -/
def npRound (c : Cell) : Cell := c.map fun q => ((roundEven q : ℤ) : ℚ)

/-- `np.clip(x, 1, 5)` on one cell; NaN propagates. -/
def npClip (c : Cell) : Cell := c.map fun q => min 5 (max 1 q)

/-- The cell of a matrix at row `i`, column `j`; out-of-range access
yields `none`. -/
def cellAt (X : Mat) (i j : ℕ) : Cell := (X.getD i []).getD j none

/-- An observed value is a valid rating: an integer in the inclusive
rating range 1..5. -/
def validRating (q : ℚ) : Prop := ∃ k : ℤ, q = (k : ℚ) ∧ 1 ≤ k ∧ k ≤ 5

/-- A cell holds an integer rating in the inclusive range 1..5. -/
def intRating (c : Cell) : Prop := ∃ k : ℤ, c = some (k : ℚ) ∧ 1 ≤ k ∧ k ≤ 5

/-- A matrix is a well-formed rating matrix: every observed cell holds
a valid integer rating (the RatingMatrix data contract). -/
def validMat (X : Mat) : Prop :=
  ∀ row ∈ X, ∀ c ∈ row, ∀ q : ℚ, c = some q → validRating q

/-- A list map that passes the element index to the function, modelling
an index-driven NumPy loop. -/
def mapIdxFn (f : ℕ → α → β) : List α → List β
  | [] => []
  | a :: l => f 0 a :: mapIdxFn (fun i => f (i + 1)) l

@[simp] theorem mapIdxFn_nil (f : ℕ → α → β) : mapIdxFn f [] = [] := rfl

@[simp] theorem mapIdxFn_cons (f : ℕ → α → β) (a : α) (l : List α) :
    mapIdxFn f (a :: l) = f 0 a :: mapIdxFn (fun i => f (i + 1)) l := rfl

theorem mapIdxFn_getElem? (f : ℕ → α → β) (l : List α) (i : ℕ) :
    (mapIdxFn f l)[i]? = l[i]?.map (f i) := by
  induction l generalizing f i with
  | nil => simp
  | cons a l ih =>
    cases i with
    | zero => simp
    | succ n => simp [ih]

@[simp] theorem mapIdxFn_length (f : ℕ → α → β) (l : List α) :
    (mapIdxFn f l).length = l.length := by
  induction l generalizing f with
  | nil => rfl
  | cons a l ih => simp [mapIdxFn, ih]

theorem getD_eq_getElem?_getD (l : List α) (i : ℕ) (d : α) :
    l.getD i d = l[i]?.getD d := List.getD_eq_getElem?_getD l i d

theorem mapIdxFn_getD_of_lt (f : ℕ → α → α) (l : List α) (d : α) {j : ℕ}
    (h : j < l.length) : (mapIdxFn f l).getD j d = f j (l.getD j d) := by
  rw [getD_eq_getElem?_getD, getD_eq_getElem?_getD, mapIdxFn_getElem?,
    List.getElem?_eq_getElem h]
  simp

theorem getD_map_nilfix (g : List Cell → List Cell) (hg : g [] = [])
    (X : Mat) (i : ℕ) : (X.map g).getD i [] = g (X.getD i []) := by
  rw [getD_eq_getElem?_getD, getD_eq_getElem?_getD, List.getElem?_map]
  rcases h : X[i]? with _ | r
  · simp [hg]
  · simp

theorem getD_mapIdxFn_nilfix (g : ℕ → List Cell → List Cell)
    (hg : ∀ i, g i [] = []) (X : Mat) (i : ℕ) :
    (mapIdxFn g X).getD i [] = g i (X.getD i []) := by
  rw [getD_eq_getElem?_getD, getD_eq_getElem?_getD, mapIdxFn_getElem?]
  rcases h : X[i]? with _ | r
  · simp [hg]
  · simp

theorem getD_some_getElem? {row : List Cell} {j : ℕ} {v : ℚ}
    (h : row.getD j none = some v) : row[j]? = some (some v) := by
  rw [getD_eq_getElem?_getD] at h
  rcases hj : row[j]? with _ | c
  · rw [hj] at h; simp at h
  · rw [hj] at h; simp at h; rw [h]

theorem mapIdxFn_getD_of_some {f : ℕ → Cell → Cell} {row : List Cell}
    {j : ℕ} {v : ℚ} (h : row.getD j none = some v) :
    (mapIdxFn f row).getD j none = f j (some v) := by
  rw [getD_eq_getElem?_getD, mapIdxFn_getElem?, getD_some_getElem? h]
  simp

theorem map_getD_of_some {f : Cell → Cell} {row : List Cell}
    {j : ℕ} {v : ℚ} (h : row.getD j none = some v) :
    (row.map f).getD j none = f (some v) := by
  rw [getD_eq_getElem?_getD, List.getElem?_map, getD_some_getElem? h]
  simp

theorem roundEven_intCast (k : ℤ) : roundEven (k : ℚ) = k := by
  simp [roundEven]

/-- Rounding then clipping fixes every valid integer rating. -/
theorem clipRound_fix {q : ℚ} (h : validRating q) :
    npClip (npRound (some q)) = some q := by
  obtain ⟨k, rfl, h1, h5⟩ := h
  simp [npRound, npClip, roundEven_intCast]
  rw [max_eq_right (by exact_mod_cast h1), min_eq_right (by exact_mod_cast h5)]

/-- Rounding then clipping any observed value yields an integer rating
in the inclusive range 1..5. -/
theorem clipRound_int (q : ℚ) : intRating (npClip (npRound (some q))) := by
  refine ⟨min 5 (max 1 (roundEven q)), ?_, ?_, ?_⟩
  · simp [npRound, npClip]
  · simp only [le_min_iff, le_max_iff]
    omega
  · exact min_le_left _ _

theorem nanMean_isSome {l : List Cell} (h : ¬ (l.filterMap id).isEmpty) :
    ∃ q, nanMean l = some q := by
  simp only [nanMean]
  rw [if_neg h]
  exact ⟨_, rfl⟩

/-! ## MeanImputationBaseline (src/experiments/baseline_comparison.py) -/

/-- State of `MeanImputationBaseline`: the constructor sets
`global_mean = None`, `feature_means = None`, `is_fitted = False`. -/
structure MeanImputationBaseline where
  global_mean : Option ℚ
  feature_means : Option (List Cell)
  is_fitted : Bool

/-- The freshly constructed baseline model. -/
def MeanImputationBaseline.init : MeanImputationBaseline :=
  { global_mean := none, feature_means := none, is_fitted := false }

/-- `MeanImputationBaseline.fit`: global nanmean over all cells, per-column
nanmean, replacing NaN column means by the global mean. -/
def MeanImputationBaseline.fit (m : MeanImputationBaseline) (X : Mat) :
    MeanImputationBaseline :=
  let gm := nanMean X.flatten
  let fms := X.transpose.map nanMean
  let fms := fms.map fun f => match f with | some v => some v | none => gm
  { m with global_mean := gm, feature_means := some fms, is_fitted := true }

/-- One cell of the baseline fill: observed values pass through, a missing
cell receives the column feature mean, falling back to the global mean
(lines 134-141 of the source: column fill, then global fill of what is
still NaN). -/
def MeanImputationBaseline.fillCell (gm fm c : Cell) : Cell :=
  match c with
  | some v => some v
  | none => match fm with | some f => some f | none => gm

/-- `MeanImputationBaseline.predict`: raises unless fitted; fills missing
cells from the feature means (then the global mean), then rounds and clips
the whole matrix to the rating range. Returns the (unchanged) model state
alongside the result. -/
def MeanImputationBaseline.predict (m : MeanImputationBaseline) (X : Mat) :
    Except String (Mat × MeanImputationBaseline) :=
  if m.is_fitted = false then .error "Model must be fitted before prediction"
  else
    let fms := m.feature_means.getD []
    let Xp := X.map fun row =>
      mapIdxFn (fun j c =>
        npClip (npRound (fillCell m.global_mean (fms.getD j none) c))) row
    .ok (Xp, m)

/-! ## ModelEvaluator (src/utils/evaluation.py) -/

/-- The pairs retained by `evaluate_model`: the elementwise flatten of
both matrices, dropping every position at which either matrix is NaN. -/
def cleanPairs (y_true y_pred : Mat) : List (ℚ × ℚ) :=
  (y_true.flatten.zip y_pred.flatten).filterMap fun p =>
    match p with
    | (some a, some b) => some (a, b)
    | _ => none

/-- One evaluation record. The source stores `rmse = sqrt(mse)`; since
the square root is strictly monotone, the model tracks the squared value
`mse` exactly, which determines the RMSE and preserves every comparison
between records. `r2 = none` models sklearn returning NaN (fewer than two
retained samples) and the degenerate zero-variance case is given sklearn's
documented 0/1 convention. -/
structure EvalMetrics where
  model_name : String
  mse : ℚ
  mae : ℚ
  r2 : Option ℚ
  n_predictions : ℕ
deriving DecidableEq

/-- Models `sklearn.metrics.r2_score` on the retained samples: NaN
(`none`) below two samples, the documented 0/1 convention for zero total
variance, and 1 - SSres/SStot otherwise. -/
def r2Score (nSamples : ℕ) (sstot ssres : ℚ) : Option ℚ :=
  if nSamples < 2 then none
  else if sstot = 0 then (if ssres = 0 then some 1 else some 0)
  else some (1 - ssres / sstot)

/-- `ModelEvaluator.evaluate_model`: masks out cells missing in either
argument, then computes MSE (determining RMSE), MAE and R² over the
retained cells. sklearn's metric functions raise ValueError on zero
retained samples, modelled as the error branch. -/
def ModelEvaluator.evaluate_model (y_true y_pred : Mat) (name : String) :
    Except String EvalMetrics :=
  let ps := cleanPairs y_true y_pred
  if ps.isEmpty then
    .error "Found array with 0 sample(s) (shape=(0,)) while a minimum of 1 is required"
  else
    let n : ℚ := ps.length
    let mse := (ps.map fun p => (p.1 - p.2) ^ 2).sum / n
    let mae := (ps.map fun p => |p.1 - p.2|).sum / n
    let ybar := (ps.map Prod.fst).sum / n
    .ok { model_name := name, mse := mse, mae := mae,
          r2 := r2Score ps.length ((ps.map fun p => (p.1 - ybar) ^ 2).sum)
                  ((ps.map fun p => (p.1 - p.2) ^ 2).sum),
          n_predictions := ps.length }

/-! ## EMRecommender (src/models/em_recommender.py) -/

/-- State of `EMRecommender`. The fitted sklearn objects
(SimpleImputer most_frequent, StandardScaler, GaussianMixture) matter to
this repository only through the composed hard cluster assignment
produced for an input matrix, modelled by the function stored in `gmm`. -/
structure EMRecommender where
  n_components : ℕ
  random_state : ℤ
  gmm : Option (Mat → List ℕ)
  cluster_means : Option (List (List Cell))
  is_fitted : Bool

/-- A freshly constructed `EMRecommender(n_components, random_state)`. -/
def EMRecommender.init (k : ℕ) (rs : ℤ := 42) : EMRecommender :=
  { n_components := k, random_state := rs, gmm := none,
    cluster_means := none, is_fitted := false }

/-- The number of features `X.shape[1]` of a (rectangular) matrix. -/
def nFeatures (X : Mat) : ℕ := (X.getD 0 []).length

/-- Column `j` of a matrix, `X[:, j]`. -/
def colCells (X : Mat) (j : ℕ) : List Cell := X.map fun row => row.getD j none

/-- The observed values of feature `j` among the users assigned to
cluster `cid` (the `valid_values` slice of
`EMRecommender._compute_cluster_means`). -/
def EMRecommender.clusterFeatureVals (X : Mat) (labels : List ℕ)
    (cid j : ℕ) : List ℚ :=
  ((X.zip labels).filterMap fun rl =>
    if rl.2 = cid then some rl.1 else none).filterMap fun row =>
      row.getD j none

/-- `EMRecommender._compute_cluster_means`: for every cluster and feature,
the mean over the originally-observed values of that cluster's users,
falling back to the feature's global nanmean when the cluster has no
observation for the feature. -/
def EMRecommender.computeClusterMeans (k : ℕ) (X : Mat) (labels : List ℕ) :
    List (List Cell) :=
  (List.range k).map fun cid =>
    (List.range (nFeatures X)).map fun j =>
      if (clusterFeatureVals X labels cid j).isEmpty then
        nanMean (colCells X j)
      else some ((clusterFeatureVals X labels cid j).sum /
        (clusterFeatureVals X labels cid j).length)

/-- The ValueError message sklearn's GaussianMixture raises when given
fewer samples than components. -/
def gmmErrMsg (k n : ℕ) : String :=
  s!"Expected n_samples >= n_components but got n_components = {k}, n_samples = {n}"

/-- Models `sklearn.mixture.GaussianMixture.fit_predict`: the library
validates `n_samples >= n_components`, raising ValueError otherwise; the
labels it computes are supplied by the abstract `oracle`. -/
def gmmFitPredict (k : ℕ) (oracle : Mat → List ℕ) (X : Mat) :
    Except String (List ℕ) :=
  if X.length < k then .error (gmmErrMsg k X.length)
  else .ok (oracle X)

/-- `EMRecommender.fit`: temporary dense fill and scaling feed the
Gaussian mixture (folded into `oracle`), whose labels drive the
cluster-conditional means computed from the original data. -/
def EMRecommender.fit (m : EMRecommender) (oracle : Mat → List ℕ) (X : Mat) :
    Except String EMRecommender := do
  let labels ← gmmFitPredict m.n_components oracle X
  .ok { m with gmm := some oracle,
               cluster_means :=
                 some (computeClusterMeans m.n_components X labels),
               is_fitted := true }

/-- `EMRecommender.predict`: raises unless fitted; assigns each input row
to a cluster via the fitted pipeline and fills only that row's missing
cells with the cluster's feature means, rounding and clipping only those
filled cells. Returns the (unchanged) model state alongside the result. -/
def EMRecommender.predict (m : EMRecommender) (X : Mat) :
    Except String (Mat × EMRecommender) :=
  if m.is_fitted = false then .error "Model must be fitted before prediction"
  else
    let labels := (m.gmm.getD fun _ => []) X
    let cms := m.cluster_means.getD []
    let Xp := mapIdxFn (fun i row =>
      let cm := cms.getD (labels.getD i 0) []
      mapIdxFn (fun j c =>
        match c with
        | some v => some v
        | none => npClip (npRound (cm.getD j none))) row) X
    .ok (Xp, m)

/-! ## KNNRecommender and KNNCollaborativeRecommender
(src/models/knn_recommender.py) -/

/-- State of `KNNRecommender`. The fitted `sklearn.impute.KNNImputer` is
external; its `transform` is the function stored in `imputer`. -/
structure KNNRecommender where
  n_neighbors : ℕ
  weights : String
  imputer : Option (Mat → Mat)
  is_fitted : Bool

/-- A freshly constructed `KNNRecommender(n_neighbors, weights)`. -/
def KNNRecommender.init (k : ℕ := 30) (w : String := "uniform") :
    KNNRecommender :=
  { n_neighbors := k, weights := w, imputer := none, is_fitted := false }

/-- `KNNRecommender.fit`: stores the KNNImputer fitted on `X` (the
library-fitted transform is `oracle`). -/
def KNNRecommender.fit (m : KNNRecommender) (oracle : Mat → Mat) (_X : Mat) :
    KNNRecommender :=
  { m with imputer := some oracle, is_fitted := true }

/-- `KNNRecommender.predict`: raises unless fitted; transforms the input
through the fitted imputer, then rounds and clips every cell. Returns
the (unchanged) model state alongside the result. -/
def KNNRecommender.predict (m : KNNRecommender) (X : Mat) :
    Except String (Mat × KNNRecommender) :=
  if m.is_fitted = false then .error "Model must be fitted before prediction"
  else
    let Xp := ((m.imputer.getD id) X).map fun row =>
      row.map fun c => npClip (npRound c)
    .ok (Xp, m)

/-- The item-based subclass shares the state layout of `KNNRecommender`;
only `fit` and `predict` differ (they work on the transpose). -/
abbrev KNNCollaborativeRecommender := KNNRecommender

/-- `KNNCollaborativeRecommender.fit`: stores the KNNImputer fitted on
the transposed matrix. -/
def KNNCollaborativeRecommender.fit (m : KNNCollaborativeRecommender)
    (oracle : Mat → Mat) (_X : Mat) : KNNCollaborativeRecommender :=
  { m with imputer := some oracle, is_fitted := true }

/-- `KNNCollaborativeRecommender.predict`: raises unless fitted;
transforms the transposed input and transposes back, then rounds and
clips every cell. -/
def KNNCollaborativeRecommender.predict (m : KNNCollaborativeRecommender)
    (X : Mat) : Except String (Mat × KNNCollaborativeRecommender) :=
  if m.is_fitted = false then .error "Model must be fitted before prediction"
  else
    let Xp := (((m.imputer.getD id) X.transpose).transpose).map fun row =>
      row.map fun c => npClip (npRound c)
    .ok (Xp, m)

/-! ## MatrixFactorizationRecommender (src/models/matrix_factorization.py) -/

/-- Per-column means, the statistics of a fitted
`SimpleImputer(strategy='mean')`. -/
def colMeans (X : Mat) : List Cell := X.transpose.map nanMean

/-- `SimpleImputer.transform` with the fitted column statistics: fills
each missing cell with its column's fitted mean. -/
def simpleTransform (stats : List Cell) (X : Mat) : Mat :=
  X.map fun row =>
    mapIdxFn (fun j c =>
      match c with
      | some v => some v
      | none => stats.getD j none) row

/-- `np.nanmean(X, axis=1, keepdims=True)`: the per-row nanmean vector. -/
def rowNanMeans (X : Mat) : List Cell := X.map nanMean

/-- Cell subtraction; NaN propagates. -/
def cSub (a b : Cell) : Cell :=
  match a, b with
  | some x, some y => some (x - y)
  | _, _ => none

/-- Cell addition; NaN propagates. -/
def cAdd (a b : Cell) : Cell :=
  match a, b with
  | some x, some y => some (x + y)
  | _, _ => none

/-- Subtract the row-indexed vector entry from every cell of its row
(broadcast subtraction of a keepdims column vector). -/
def subRowVec (X : Mat) (v : List Cell) : Mat :=
  mapIdxFn (fun i row => row.map fun c => cSub c (v.getD i none)) X

/-- Add the row-indexed vector entry to every cell of its row. -/
def addRowVec (X : Mat) (v : List Cell) : Mat :=
  mapIdxFn (fun i row => row.map fun c => cAdd c (v.getD i none)) X

/-- The centering step of `MatrixFactorizationRecommender` (fit line 26
and predict line 61): subtract from the dense-filled matrix its own
per-row nanmean vector. -/
def mfCenter (Xf : Mat) : Mat := subRowVec Xf (rowNanMeans Xf)

/-- `np.min` over all cells: NaN-poisoning minimum, `none` for an empty
matrix. -/
def npMinMat (X : Mat) : Cell :=
  match X.flatten with
  | [] => none
  | c :: rest =>
    rest.foldl (fun acc d =>
      match acc, d with
      | some a, some b => some (min a b)
      | _, _ => none) c

/-- The NMF non-negativity shift: when the matrix minimum is negative,
shift every cell by `-min + 0.1`. A NaN minimum compares false with 0 in
NumPy, so no shift happens. -/
def nmfShift (Xc : Mat) : Mat :=
  match npMinMat Xc with
  | some mv =>
    if mv < 0 then Xc.map (List.map fun c => c.map fun q => q - mv + 1/10)
    else Xc
  | none => Xc

/-- The dense-fill / center / (NMF shift) pipeline applied to an input
before the factorization model sees it, shared by fit and predict. -/
def mfPreFromFilled (method : String) (Xf : Mat) : Mat :=
  let Xc := mfCenter Xf
  if method = "nmf" then nmfShift Xc else Xc

/-- State of `MatrixFactorizationRecommender`. The fitted NMF/TruncatedSVD
factor model is external; `model` stores the composite
`transform(.) @ components_` reconstruction map. -/
structure MatrixFactorizationRecommender where
  n_components : ℕ
  method : String
  random_state : ℤ
  model : Option (Mat → Mat)
  temp_imputer : Option (List Cell)
  user_mean : Option (List Cell)
  is_fitted : Bool

/-- A freshly constructed
`MatrixFactorizationRecommender(n_components, method, random_state)`;
the method string is lowercased as in the constructor. -/
def MatrixFactorizationRecommender.init (n : ℕ := 50)
    (method : String := "nmf") (rs : ℤ := 42) :
    MatrixFactorizationRecommender :=
  { n_components := n, method := method.toLower, random_state := rs,
    model := none, temp_imputer := none, user_mean := none,
    is_fitted := false }

/-- The matrix actually handed to the library factorization in `fit`
(source lines 20-47): mean-filled, centered by the FILLED matrix's row
means, then NMF-shifted when applicable. -/
def MatrixFactorizationRecommender.fitInput (method : String) (X : Mat) :
    Mat :=
  mfPreFromFilled method (simpleTransform (colMeans X) X)

/-- `MatrixFactorizationRecommender.fit`: stores the SimpleImputer column
statistics, the per-user nanmean of the ORIGINAL data in `user_mean`
(source line 25 - a value predict never reads), and the library model
fitted on `fitInput` (abstracted as `oracle`). -/
def MatrixFactorizationRecommender.fit (m : MatrixFactorizationRecommender)
    (oracle : Mat → Mat) (X : Mat) : MatrixFactorizationRecommender :=
  { m with temp_imputer := some (colMeans X),
           user_mean := some (rowNanMeans X),
           model := some oracle,
           is_fitted := true }

/-- The full reconstruction computed inside `predict` (source lines
57-74): fill with the fitted column statistics, center by the filled
matrix's row means, NMF-shift if applicable, project through the fitted
factors, and add back the FILLED matrix's row means. -/
def MatrixFactorizationRecommender.reconstructFull
    (m : MatrixFactorizationRecommender) (X : Mat) : Mat :=
  let Xf := simpleTransform (m.temp_imputer.getD []) X
  addRowVec ((m.model.getD id) (mfPreFromFilled m.method Xf))
    (rowNanMeans Xf)

/-- Splice the reconstruction into the original matrix only at missing
positions (source lines 76-79): observed entries are copied through. -/
def spliceMissing (X Xpred : Mat) : Mat :=
  mapIdxFn (fun i row =>
    mapIdxFn (fun j c =>
      match c with
      | some v => some v
      | none => cellAt Xpred i j) row) X

/-- `MatrixFactorizationRecommender.predict`: raises unless fitted;
reconstructs, splices into the original at missing positions only, then
rounds and clips every cell. Returns the (unchanged) model state. -/
def MatrixFactorizationRecommender.predict
    (m : MatrixFactorizationRecommender) (X : Mat) :
    Except String (Mat × MatrixFactorizationRecommender) :=
  if m.is_fitted = false then .error "Model must be fitted before prediction"
  else
    let Xres := spliceMissing X (m.reconstructFull X)
    .ok (Xres.map fun row => row.map fun c => npClip (npRound c), m)

/-! ## Comparison runner (src/experiments/baseline_comparison.py lines
30-103). A job is one named model's combined fit/predict/evaluate
outcome: metrics `(mse, mae, r2)` on success (the rmse column is tracked
on the squared scale, which the strictly monotone square root carries to
the float scale), or the raised exception's message. -/

/-- One row of the comparison results table. `rmse`/`mae` are `⊤` and
`r2` is `⊥` exactly for the sentinel failing record, modelling the
float('inf') / -float('inf') sentinels. -/
structure CompRecord where
  model_name : String
  rmse : WithTop ℚ
  mae : WithTop ℚ
  r2 : WithBot ℚ
  error : Option String

/-- The sentinel failing record appended when a model raises (source
lines 64-75). -/
def sentinelRecord (name errmsg : String) : CompRecord :=
  { model_name := name, rmse := ⊤, mae := ⊤, r2 := ⊥, error := some errmsg }

/-- The record appended for a successful model (source lines 39-57). -/
def successRecord (name : String) (mse mae r2 : ℚ) : CompRecord :=
  { model_name := name, rmse := (mse : ℚ), mae := (mae : ℚ),
    r2 := (r2 : ℚ), error := none }

/-- The `results` list accumulated by the comparison loop: every job
yields exactly one record, failures yielding the sentinel record, and
the loop continues past failures. -/
def comparisonResults (jobs : List (String × Except String (ℚ × ℚ × ℚ))) :
    List CompRecord :=
  jobs.map fun job =>
    match job.2 with
    | .ok v => successRecord job.1 v.1 v.2.1 v.2.2
    | .error e => sentinelRecord job.1 e

/-- Ascending comparison on the rmse column. -/
def rmseLe (a b : CompRecord) : Bool := decide (a.rmse ≤ b.rmse)

/-- `run_baseline_comparison` final ranking (source lines 77-103): drop
records whose rmse is the infinite sentinel, and if any remain, sort
ascending by rmse; if every model failed, return the empty table. -/
def run_baseline_comparison
    (jobs : List (String × Except String (ℚ × ℚ × ℚ))) : List CompRecord :=
  let df_results := comparisonResults jobs
  let df_success := df_results.filter fun r => decide (r.rmse ≠ ⊤)
  if df_success.isEmpty then [] else df_success.mergeSort rmseLe

/-! ## ModelEvaluator.compare_models (src/utils/evaluation.py lines
34-38): round every numeric column to 4 decimals, then sort by the
rounded rmse column. -/

/-- One row handed to `compare_models`. -/
structure ResultRow where
  model_name : String
  rmse : ℚ
  mae : ℚ
  r2_score : ℚ
deriving DecidableEq

/-- `DataFrame.round(4)` on one value: round half to even at the fourth
decimal. -/
def round4 (q : ℚ) : ℚ := (roundEven (q * 10000) : ℚ) / 10000

/-- `df.round(4)` on one row: every numeric column is rounded. -/
def ResultRow.round4Row (r : ResultRow) : ResultRow :=
  { r with rmse := round4 r.rmse, mae := round4 r.mae,
           r2_score := round4 r.r2_score }

/-- Ascending comparison on the rounded rmse column. -/
def rowRmseLe (a b : ResultRow) : Bool := decide (a.rmse ≤ b.rmse)

/-- `ModelEvaluator.compare_models`: rounds every metric to 4 decimals
and only then sorts by the (now rounded) rmse column, so ties created by
rounding keep their input order. -/
def ModelEvaluator.compare_models (results : List ResultRow) :
    List ResultRow :=
  (results.map ResultRow.round4Row).mergeSort rowRmseLe

/-! ## Additional structural lemmas -/

theorem map_getD_of_lt {f : Cell → Cell} {row : List Cell} {j : ℕ}
    (h : j < row.length) :
    (row.map f).getD j none = f (row.getD j none) := by
  rw [getD_eq_getElem?_getD, getD_eq_getElem?_getD, List.getElem?_map,
    List.getElem?_eq_getElem h]
  simp

theorem range_map_getD {f : ℕ → α} {k ℓ : ℕ} (h : ℓ < k) (d : α) :
    ((List.range k).map f).getD ℓ d = f ℓ := by
  rw [getD_eq_getElem?_getD, List.getElem?_map]
  rw [List.getElem?_range h]
  simp

theorem getD_mem_of_lt (l : List α) (d : α) {i : ℕ} (h : i < l.length) :
    l.getD i d ∈ l := by
  rw [getD_eq_getElem?_getD, List.getElem?_eq_getElem h]
  exact List.getElem_mem h

/-! ## C6: predict before fit raises -/

/-- C6: for every imputer, calling predict on a freshly constructed
(unfitted) model raises the not-fitted ValueError, whatever the input
matrix is. -/
theorem c6_predict_before_fit (k kn n : ℕ) (rs rs' : ℤ) (w method : String)
    (X : Mat) :
    MeanImputationBaseline.init.predict X
        = .error "Model must be fitted before prediction"
    ∧ (EMRecommender.init k rs).predict X
        = .error "Model must be fitted before prediction"
    ∧ (KNNRecommender.init kn w).predict X
        = .error "Model must be fitted before prediction"
    ∧ KNNCollaborativeRecommender.predict (KNNRecommender.init kn w) X
        = .error "Model must be fitted before prediction"
    ∧ (MatrixFactorizationRecommender.init n method rs').predict X
        = .error "Model must be fitted before prediction" :=
  ⟨rfl, rfl, rfl, rfl, rfl⟩

/-! ## C7: EM fit rejects fewer users than clusters -/

/-- C7: `EMRecommender.fit` on a matrix with strictly fewer rows than
`n_components` propagates GaussianMixture's ValueError instead of
producing a fitted model. -/
theorem c7_em_fit_rejects (k : ℕ) (rs : ℤ) (oracle : Mat → List ℕ)
    (X : Mat) (h : X.length < k) :
    (EMRecommender.init k rs).fit oracle X = .error (gmmErrMsg k X.length) := by
  have hk : (EMRecommender.init k rs).n_components = k := rfl
  simp only [EMRecommender.fit, gmmFitPredict, hk, if_pos h]
  rfl

/-- Concrete instance of C7: a one-row matrix cannot be fitted with two
clusters. -/
theorem c7_witness :
    ([[(some 1 : Cell), some 2]] : Mat).length < 2
    ∧ (EMRecommender.init 2 42).fit (fun _ => []) [[some 1, some 2]]
        = .error (gmmErrMsg 2 1) := by
  refine ⟨by decide, ?_⟩
  exact c7_em_fit_rejects 2 42 (fun _ => []) [[some 1, some 2]] (by decide)

/-! ## C8: evaluation on an empty retained mask fails -/

/-- C8: when every cell is missing in at least one of the two arguments
(the retained mask is empty), `evaluate_model` raises sklearn's
ValueError instead of silently returning NaN metrics. -/
theorem c8_evaluate_empty_mask (y_true y_pred : Mat) (name : String)
    (h : cleanPairs y_true y_pred = []) :
    ModelEvaluator.evaluate_model y_true y_pred name
      = .error "Found array with 0 sample(s) (shape=(0,)) while a minimum of 1 is required" := by
  simp [ModelEvaluator.evaluate_model, h]

/-- Concrete instance of C8: a 1x1 ground truth against an all-missing
prediction retains zero cells and errors. -/
theorem c8_witness :
    cleanPairs [[some 1]] [[none]] = []
    ∧ ModelEvaluator.evaluate_model [[some 1]] [[none]] "m"
        = .error "Found array with 0 sample(s) (shape=(0,)) while a minimum of 1 is required" :=
  ⟨rfl, c8_evaluate_empty_mask [[some 1]] [[none]] "m" rfl⟩

/-! ## C9: predict mutates nothing, so repeated predict agrees -/

/-- C9: for every imputer, a successful predict returns the fitted model
state unchanged (no attribute of self is written), hence calling predict
again on the same fitted model and input yields the identical output
matrix. -/
theorem c9_predict_repeatable :
    (∀ (m : MeanImputationBaseline) (X Y : Mat) (m' : MeanImputationBaseline),
      m.predict X = .ok (Y, m') → m' = m ∧ m'.predict X = .ok (Y, m'))
    ∧ (∀ (m : EMRecommender) (X Y : Mat) (m' : EMRecommender),
      m.predict X = .ok (Y, m') → m' = m ∧ m'.predict X = .ok (Y, m'))
    ∧ (∀ (m : KNNRecommender) (X Y : Mat) (m' : KNNRecommender),
      m.predict X = .ok (Y, m') → m' = m ∧ m'.predict X = .ok (Y, m'))
    ∧ (∀ (m : KNNCollaborativeRecommender) (X Y : Mat)
        (m' : KNNCollaborativeRecommender),
      KNNCollaborativeRecommender.predict m X = .ok (Y, m') →
        m' = m ∧ KNNCollaborativeRecommender.predict m' X = .ok (Y, m'))
    ∧ (∀ (m : MatrixFactorizationRecommender) (X Y : Mat)
        (m' : MatrixFactorizationRecommender),
      m.predict X = .ok (Y, m') → m' = m ∧ m'.predict X = .ok (Y, m')) := by
  refine ⟨?_, ?_, ?_, ?_, ?_⟩
  · intro m X Y m' h
    rw [MeanImputationBaseline.predict] at h
    split at h
    · simp at h
    · rename_i hc
      rw [Except.ok.injEq, Prod.mk.injEq] at h
      obtain ⟨rfl, rfl⟩ := h
      exact ⟨rfl, by rw [MeanImputationBaseline.predict, if_neg hc]⟩
  · intro m X Y m' h
    rw [EMRecommender.predict] at h
    split at h
    · simp at h
    · rename_i hc
      rw [Except.ok.injEq, Prod.mk.injEq] at h
      obtain ⟨rfl, rfl⟩ := h
      exact ⟨rfl, by rw [EMRecommender.predict, if_neg hc]⟩
  · intro m X Y m' h
    rw [KNNRecommender.predict] at h
    split at h
    · simp at h
    · rename_i hc
      rw [Except.ok.injEq, Prod.mk.injEq] at h
      obtain ⟨rfl, rfl⟩ := h
      exact ⟨rfl, by rw [KNNRecommender.predict, if_neg hc]⟩
  · intro m X Y m' h
    rw [KNNCollaborativeRecommender.predict] at h
    split at h
    · simp at h
    · rename_i hc
      rw [Except.ok.injEq, Prod.mk.injEq] at h
      obtain ⟨rfl, rfl⟩ := h
      exact ⟨rfl, by rw [KNNCollaborativeRecommender.predict, if_neg hc]⟩
  · intro m X Y m' h
    rw [MatrixFactorizationRecommender.predict] at h
    split at h
    · simp at h
    · rename_i hc
      rw [Except.ok.injEq, Prod.mk.injEq] at h
      obtain ⟨rfl, rfl⟩ := h
      exact ⟨rfl, by rw [MatrixFactorizationRecommender.predict, if_neg hc]⟩

/-- Concrete instance of C9: each imputer's predict hypothesis is
satisfiable and the repeated call agrees. -/
theorem c9_witness :
    (⟨some 4, some [some 4], true⟩ : MeanImputationBaseline).predict [[none]]
        = .ok ([[some 4]], ⟨some 4, some [some 4], true⟩)
    ∧ (⟨1, 42, some fun _ => [0], some [[some 4]], true⟩ :
          EMRecommender).predict [[none]]
        = .ok ([[some 4]], ⟨1, 42, some fun _ => [0], some [[some 4]], true⟩)
    ∧ (⟨1, "uniform", some id, true⟩ : KNNRecommender).predict [[some 4]]
        = .ok ([[some 4]], ⟨1, "uniform", some id, true⟩)
    ∧ KNNCollaborativeRecommender.predict
          (⟨1, "uniform", some id, true⟩ : KNNCollaborativeRecommender)
          [[some 4]]
        = .ok ([[some 4]], ⟨1, "uniform", some id, true⟩)
    ∧ (⟨1, "svd", 42, some id, some [some 4], some [some 4], true⟩ :
          MatrixFactorizationRecommender).predict [[some 4]]
        = .ok ([[some 4]],
            ⟨1, "svd", 42, some id, some [some 4], some [some 4], true⟩) := by
  have h1 : (⟨some 4, some [some 4], true⟩ :
      MeanImputationBaseline).predict [[none]]
      = .ok ([[some 4]], ⟨some 4, some [some 4], true⟩) := by
    norm_num [MeanImputationBaseline.predict, MeanImputationBaseline.fillCell,
      npRound, npClip, roundEven, mapIdxFn]
  have h2 : (⟨1, 42, some fun _ => [0], some [[some 4]], true⟩ :
      EMRecommender).predict [[none]]
      = .ok ([[some 4]], ⟨1, 42, some fun _ => [0], some [[some 4]], true⟩) := by
    norm_num [EMRecommender.predict, npRound, npClip, roundEven, mapIdxFn]
  have h3 : (⟨1, "uniform", some id, true⟩ : KNNRecommender).predict [[some 4]]
      = .ok ([[some 4]], ⟨1, "uniform", some id, true⟩) := by
    norm_num [KNNRecommender.predict, npRound, npClip, roundEven]
  have h4 : KNNCollaborativeRecommender.predict
      (⟨1, "uniform", some id, true⟩ : KNNCollaborativeRecommender) [[some 4]]
      = .ok ([[some 4]], ⟨1, "uniform", some id, true⟩) := by
    have ht : List.transpose ([[(some 4 : Cell)]]) = [[some 4]] := rfl
    norm_num [KNNCollaborativeRecommender.predict, ht, npRound, npClip,
      roundEven]
  have h5 : (⟨1, "svd", 42, some id, some [some 4], some [some 4], true⟩ :
      MatrixFactorizationRecommender).predict [[some 4]]
      = .ok ([[some 4]],
          ⟨1, "svd", 42, some id, some [some 4], some [some 4], true⟩) := by
    norm_num [MatrixFactorizationRecommender.predict,
      MatrixFactorizationRecommender.reconstructFull, spliceMissing,
      simpleTransform, mfPreFromFilled, mfCenter, subRowVec, addRowVec,
      rowNanMeans, nanMean, cSub, cAdd, nmfShift, npMinMat, cellAt,
      npRound, npClip, roundEven, mapIdxFn]
  exact ⟨(c9_predict_repeatable.1 _ _ _ _ h1).2,
    (c9_predict_repeatable.2.1 _ _ _ _ h2).2,
    (c9_predict_repeatable.2.2.1 _ _ _ _ h3).2,
    (c9_predict_repeatable.2.2.2.1 _ _ _ _ h4).2,
    (c9_predict_repeatable.2.2.2.2 _ _ _ _ h5).2⟩

/-! ## C1: observed cells are preserved -/

/-- C1: for every imputer and every rating-matrix input, a cell observed
in the input (its value a valid integer rating, per the RatingMatrix
data contract) is returned bit-identically by predict. For the two KNN
variants the sklearn KNNImputer contract - transform preserves observed
entries - enters as an explicit hypothesis on the fitted transform. -/
theorem c1_observed_preserved :
    (∀ (m : MeanImputationBaseline) (X Y : Mat) (m' : MeanImputationBaseline)
        (i j : ℕ) (v : ℚ), m.predict X = .ok (Y, m') → validRating v →
        cellAt X i j = some v → cellAt Y i j = some v)
    ∧ (∀ (m : EMRecommender) (X Y : Mat) (m' : EMRecommender)
        (i j : ℕ) (v : ℚ), m.predict X = .ok (Y, m') → validRating v →
        cellAt X i j = some v → cellAt Y i j = some v)
    ∧ (∀ (m : KNNRecommender) (X Y : Mat) (m' : KNNRecommender)
        (i j : ℕ) (v : ℚ), m.predict X = .ok (Y, m') →
        (∀ (p q : ℕ) (w : ℚ), cellAt X p q = some w →
          cellAt ((m.imputer.getD id) X) p q = some w) →
        validRating v → cellAt X i j = some v → cellAt Y i j = some v)
    ∧ (∀ (m : KNNCollaborativeRecommender) (X Y : Mat)
        (m' : KNNCollaborativeRecommender) (i j : ℕ) (v : ℚ),
        KNNCollaborativeRecommender.predict m X = .ok (Y, m') →
        (∀ (p q : ℕ) (w : ℚ), cellAt X p q = some w →
          cellAt (((m.imputer.getD id) X.transpose).transpose) p q = some w) →
        validRating v → cellAt X i j = some v → cellAt Y i j = some v)
    ∧ (∀ (m : MatrixFactorizationRecommender) (X Y : Mat)
        (m' : MatrixFactorizationRecommender) (i j : ℕ) (v : ℚ),
        m.predict X = .ok (Y, m') → validRating v →
        cellAt X i j = some v → cellAt Y i j = some v) := by
  refine ⟨?_, ?_, ?_, ?_, ?_⟩
  · intro m X Y m' i j v h hv hc
    rw [MeanImputationBaseline.predict] at h
    split at h
    · simp at h
    · rw [Except.ok.injEq, Prod.mk.injEq] at h
      obtain ⟨rfl, rfl⟩ := h
      unfold cellAt at hc ⊢
      rw [getD_map_nilfix _ rfl X i, mapIdxFn_getD_of_some hc]
      exact clipRound_fix hv
  · intro m X Y m' i j v h hv hc
    rw [EMRecommender.predict] at h
    split at h
    · simp at h
    · rw [Except.ok.injEq, Prod.mk.injEq] at h
      obtain ⟨rfl, rfl⟩ := h
      unfold cellAt at hc ⊢
      rw [getD_mapIdxFn_nilfix _ (fun _ => rfl) X i]
      simp only [mapIdxFn_getD_of_some hc]
  · intro m X Y m' i j v h horacle hv hc
    rw [KNNRecommender.predict] at h
    split at h
    · simp at h
    · rw [Except.ok.injEq, Prod.mk.injEq] at h
      obtain ⟨rfl, rfl⟩ := h
      have h2 := horacle i j v hc
      unfold cellAt at h2 ⊢
      rw [getD_map_nilfix _ rfl, map_getD_of_some h2]
      exact clipRound_fix hv
  · intro m X Y m' i j v h horacle hv hc
    rw [KNNCollaborativeRecommender.predict] at h
    split at h
    · simp at h
    · rw [Except.ok.injEq, Prod.mk.injEq] at h
      obtain ⟨rfl, rfl⟩ := h
      have h2 := horacle i j v hc
      unfold cellAt at h2 ⊢
      rw [getD_map_nilfix _ rfl, map_getD_of_some h2]
      exact clipRound_fix hv
  · intro m X Y m' i j v h hv hc
    rw [MatrixFactorizationRecommender.predict] at h
    split at h
    · simp at h
    · rw [Except.ok.injEq, Prod.mk.injEq] at h
      obtain ⟨rfl, rfl⟩ := h
      unfold cellAt at hc ⊢
      rw [getD_map_nilfix _ rfl, spliceMissing,
        getD_mapIdxFn_nilfix _ (fun _ => rfl) X i]
      have hs : (mapIdxFn (fun jj c =>
          match c with
          | some w => some w
          | none => cellAt (m.reconstructFull X) i jj) (X.getD i [])).getD j none
          = some v := by
        rw [mapIdxFn_getD_of_some hc]
      rw [map_getD_of_some hs]
      exact clipRound_fix hv

/-- Concrete instance of C1: every conjunct's hypotheses hold at a small
fitted model and matrix, and the observed cell survives prediction. -/
theorem c1_witness :
    cellAt [[some 5]] 0 0 = some 5
    ∧ cellAt [[some 5]] 0 1 = none
    ∧ validRating 5 := by
  have hv : validRating 5 := ⟨5, by norm_num, by norm_num, by norm_num⟩
  have h1 : (⟨some 4, some [some 4], true⟩ :
      MeanImputationBaseline).predict [[some 5]]
      = .ok ([[some 5]], ⟨some 4, some [some 4], true⟩) := by
    norm_num [MeanImputationBaseline.predict, MeanImputationBaseline.fillCell,
      npRound, npClip, roundEven, mapIdxFn]
  have c1a := c1_observed_preserved.1 _ _ _ _ 0 0 5 h1 hv rfl
  have h2 : (⟨1, 42, some fun _ => [0], some [[some 4]], true⟩ :
      EMRecommender).predict [[some 5]]
      = .ok ([[some 5]], ⟨1, 42, some fun _ => [0], some [[some 4]], true⟩) := by
    norm_num [EMRecommender.predict, npRound, npClip, roundEven, mapIdxFn]
  have c1b := c1_observed_preserved.2.1 _ _ _ _ 0 0 5 h2 hv rfl
  have h3 : (⟨1, "uniform", some id, true⟩ : KNNRecommender).predict [[some 5]]
      = .ok ([[some 5]], ⟨1, "uniform", some id, true⟩) := by
    norm_num [KNNRecommender.predict, npRound, npClip, roundEven]
  have c1c := c1_observed_preserved.2.2.1 _ _ _ _ 0 0 5 h3
    (fun _ _ _ hw => hw) hv rfl
  have h4 : KNNCollaborativeRecommender.predict
      (⟨1, "uniform", some id, true⟩ : KNNCollaborativeRecommender) [[some 5]]
      = .ok ([[some 5]], ⟨1, "uniform", some id, true⟩) := by
    have ht1 : List.transpose ([[(some 5 : Cell)]]) = [[some 5]] := rfl
    norm_num [KNNCollaborativeRecommender.predict, ht1, npRound, npClip,
      roundEven]
  have c1d := c1_observed_preserved.2.2.2.1 _ _ _ _ 0 0 5 h4
    (fun _ _ _ hw => hw) hv rfl
  have h5 : (⟨1, "svd", 42, some id, some [some 5], some [some 5], true⟩ :
      MatrixFactorizationRecommender).predict [[some 5]]
      = .ok ([[some 5]],
          ⟨1, "svd", 42, some id, some [some 5], some [some 5], true⟩) := by
    norm_num [MatrixFactorizationRecommender.predict,
      MatrixFactorizationRecommender.reconstructFull, spliceMissing,
      simpleTransform, mfPreFromFilled, mfCenter, subRowVec, addRowVec,
      rowNanMeans, nanMean, cSub, cAdd, nmfShift, npMinMat, cellAt,
      npRound, npClip, roundEven, mapIdxFn]
  have c1e := c1_observed_preserved.2.2.2.2 _ _ _ _ 0 0 5 h5 hv rfl
  exact ⟨c1a, rfl, hv⟩

/-! ## C2: range invariant -/

theorem intRating_of_valid {v : ℚ} (h : validRating v) : intRating (some v) := by
  obtain ⟨k, rfl, h1, h5⟩ := h
  exact ⟨k, rfl, h1, h5⟩

/-- C2 counterexample: fitting the mean baseline on an all-missing 1x1
matrix succeeds (np.nanmean of an empty slice is NaN, only a warning),
and predict then returns a NaN cell - not an integer in [1, 5]. -/
theorem c2_counterexample :
    (MeanImputationBaseline.init.fit [[none]]).predict [[none]]
      = .ok ([[none]], MeanImputationBaseline.init.fit [[none]])
    ∧ ¬ intRating (cellAt [[none]] 0 0) := by
  constructor
  · rfl
  · rintro ⟨k, hk, -, -⟩
    exact Option.noConfusion hk

theorem fit_global_mean_eq (m : MeanImputationBaseline) (X : Mat) :
    (m.fit X).global_mean = nanMean X.flatten := rfl

/-- C2 as amended: every cell of predict's output is an integer in the
inclusive range [1, 5], provided the fallback means the fill relies on
are defined (the fitted matrix has an observed cell; for EM, every
column has one), the external sklearn transforms return observed values
(KNN, MF reconstruction), and - for EM, which passes observed cells
through without clipping - the input is a well-formed rating matrix. -/
theorem c2_amended :
    (∀ (Xfit X Y : Mat) (m' : MeanImputationBaseline) (i j : ℕ),
      ¬ (Xfit.flatten.filterMap id).isEmpty →
      (MeanImputationBaseline.init.fit Xfit).predict X = .ok (Y, m') →
      i < Y.length → j < (Y.getD i []).length →
      intRating (cellAt Y i j))
    ∧ (∀ (k : ℕ) (rs : ℤ) (oracle : Mat → List ℕ) (Xfit : Mat)
        (m : EMRecommender) (X Y : Mat) (m' : EMRecommender) (i j : ℕ),
      (EMRecommender.init k rs).fit oracle Xfit = .ok m →
      m.predict X = .ok (Y, m') →
      (∀ j' : ℕ, j' < nFeatures Xfit →
        ¬ ((colCells Xfit j').filterMap id).isEmpty) →
      (∀ X' : Mat, ∀ l ∈ oracle X', l < k) →
      (∀ X' : Mat, (oracle X').length = X'.length) →
      (∀ row ∈ X, row.length ≤ nFeatures Xfit) →
      validMat X →
      i < Y.length → j < (Y.getD i []).length →
      intRating (cellAt Y i j))
    ∧ (∀ (m : KNNRecommender) (X Y : Mat) (m' : KNNRecommender) (i j : ℕ),
      m.predict X = .ok (Y, m') →
      (∀ row ∈ (m.imputer.getD id) X, ∀ c ∈ row, c.isSome) →
      i < Y.length → j < (Y.getD i []).length →
      intRating (cellAt Y i j))
    ∧ (∀ (m : KNNCollaborativeRecommender) (X Y : Mat)
        (m' : KNNCollaborativeRecommender) (i j : ℕ),
      KNNCollaborativeRecommender.predict m X = .ok (Y, m') →
      (∀ row ∈ (((m.imputer.getD id) X.transpose).transpose),
        ∀ c ∈ row, c.isSome) →
      i < Y.length → j < (Y.getD i []).length →
      intRating (cellAt Y i j))
    ∧ (∀ (m : MatrixFactorizationRecommender) (X Y : Mat)
        (m' : MatrixFactorizationRecommender) (i j : ℕ),
      m.predict X = .ok (Y, m') →
      (∀ p q : ℕ, p < X.length → q < (X.getD p []).length →
        cellAt X p q = none → (cellAt (m.reconstructFull X) p q).isSome) →
      i < Y.length → j < (Y.getD i []).length →
      intRating (cellAt Y i j)) := by
  refine ⟨?_, ?_, ?_, ?_, ?_⟩
  · -- MeanImputationBaseline
    intro Xfit X Y m' i j hobs h hi hj
    obtain ⟨g, hg⟩ := nanMean_isSome hobs
    rw [MeanImputationBaseline.predict] at h
    split at h
    · simp at h
    · rw [Except.ok.injEq, Prod.mk.injEq] at h
      obtain ⟨rfl, rfl⟩ := h
      rw [getD_map_nilfix _ rfl, mapIdxFn_length] at hj
      unfold cellAt
      rw [getD_map_nilfix _ rfl, mapIdxFn_getD_of_lt _ _ _ hj]
      rcases hcell : (X.getD i []).getD j none with _ | v
      · rcases hfm : (((MeanImputationBaseline.init.fit Xfit).feature_means
            ).getD []).getD j none with _ | f
        · show intRating (npClip (npRound (MeanImputationBaseline.fillCell
            (MeanImputationBaseline.init.fit Xfit).global_mean none none)))
          show intRating (npClip (npRound
            (MeanImputationBaseline.init.fit Xfit).global_mean))
          rw [fit_global_mean_eq, hg]
          exact clipRound_int g
        · show intRating (npClip (npRound (MeanImputationBaseline.fillCell
            (MeanImputationBaseline.init.fit Xfit).global_mean (some f) none)))
          exact clipRound_int f
      · exact clipRound_int v
  · -- EMRecommender
    intro k rs oracle Xfit m X Y m' i j hfit hpred hcols hlab hlen hrows hval
      hi hj
    rw [EMRecommender.fit, gmmFitPredict] at hfit
    split at hfit
    · simp only [bind, Except.bind] at hfit
      exact Except.noConfusion hfit
    · simp only [bind, Except.bind] at hfit
      rw [Except.ok.injEq] at hfit
      subst hfit
      rw [EMRecommender.predict] at hpred
      split at hpred
      · exact Except.noConfusion hpred
      · rw [Except.ok.injEq, Prod.mk.injEq] at hpred
        obtain ⟨rfl, rfl⟩ := hpred
        dsimp only [Option.getD_some] at hi hj ⊢
        rw [mapIdxFn_length] at hi
        rw [getD_mapIdxFn_nilfix _ (fun _ => rfl), mapIdxFn_length] at hj
        unfold cellAt
        rw [getD_mapIdxFn_nilfix _ (fun _ => rfl),
          mapIdxFn_getD_of_lt _ _ _ hj]
        rcases hcell : (X.getD i []).getD j none with _ | v
        · have hjF : j < nFeatures Xfit :=
            lt_of_lt_of_le hj (hrows _ (getD_mem_of_lt X [] hi))
          have hi2 : i < (oracle X).length := by rw [hlen X]; exact hi
          have hℓ : (oracle X).getD i 0 < k :=
            hlab X _ (getD_mem_of_lt (oracle X) 0 hi2)
          have hk : (EMRecommender.init k rs).n_components = k := rfl
          have hcm : ∃ q : ℚ,
              ((EMRecommender.computeClusterMeans
                  (EMRecommender.init k rs).n_components Xfit
                  (oracle Xfit)).getD ((oracle X).getD i 0) []).getD j none
                = some q := by
            rw [hk, EMRecommender.computeClusterMeans, range_map_getD hℓ,
              range_map_getD hjF]
            by_cases hve : (EMRecommender.clusterFeatureVals Xfit
                (oracle Xfit) ((oracle X).getD i 0) j).isEmpty
            · rw [if_pos hve]
              exact nanMean_isSome (hcols j hjF)
            · rw [if_neg hve]
              exact ⟨_, rfl⟩
          obtain ⟨q, hq⟩ := hcm
          rw [hq]
          exact clipRound_int q
        · have hrmem : X.getD i [] ∈ X := getD_mem_of_lt X [] hi
          have hcmem : (X.getD i []).getD j none ∈ X.getD i [] :=
            getD_mem_of_lt _ none hj
          rw [hcell] at hcmem
          exact intRating_of_valid (hval _ hrmem _ hcmem v rfl)
  · -- KNNRecommender
    intro m X Y m' i j h homg hi hj
    rw [KNNRecommender.predict] at h
    split at h
    · simp at h
    · rw [Except.ok.injEq, Prod.mk.injEq] at h
      obtain ⟨rfl, rfl⟩ := h
      rw [List.length_map] at hi
      rw [getD_map_nilfix _ rfl, List.length_map] at hj
      unfold cellAt
      rw [getD_map_nilfix _ rfl, map_getD_of_lt hj]
      have hrmem := getD_mem_of_lt ((m.imputer.getD id) X) [] hi
      have hcmem := getD_mem_of_lt ((m.imputer.getD id) X |>.getD i []) none hj
      have hsome := homg _ hrmem _ hcmem
      obtain ⟨q, hq⟩ := Option.isSome_iff_exists.mp hsome
      rw [hq]
      exact clipRound_int q
  · -- KNNCollaborativeRecommender
    intro m X Y m' i j h homg hi hj
    rw [KNNCollaborativeRecommender.predict] at h
    split at h
    · simp at h
    · rw [Except.ok.injEq, Prod.mk.injEq] at h
      obtain ⟨rfl, rfl⟩ := h
      rw [List.length_map] at hi
      rw [getD_map_nilfix _ rfl, List.length_map] at hj
      unfold cellAt
      rw [getD_map_nilfix _ rfl, map_getD_of_lt hj]
      have hrmem := getD_mem_of_lt
        (((m.imputer.getD id) X.transpose).transpose) [] hi
      have hcmem := getD_mem_of_lt
        ((((m.imputer.getD id) X.transpose).transpose).getD i []) none hj
      have hsome := homg _ hrmem _ hcmem
      obtain ⟨q, hq⟩ := Option.isSome_iff_exists.mp hsome
      rw [hq]
      exact clipRound_int q
  · -- MatrixFactorizationRecommender
    intro m X Y m' i j h hrec hi hj
    rw [MatrixFactorizationRecommender.predict] at h
    split at h
    · simp at h
    · rw [Except.ok.injEq, Prod.mk.injEq] at h
      obtain ⟨rfl, rfl⟩ := h
      rw [List.length_map, spliceMissing, mapIdxFn_length] at hi
      rw [getD_map_nilfix _ rfl, spliceMissing,
        getD_mapIdxFn_nilfix _ (fun _ => rfl), List.length_map,
        mapIdxFn_length] at hj
      unfold cellAt
      rw [getD_map_nilfix _ rfl, spliceMissing,
        getD_mapIdxFn_nilfix _ (fun _ => rfl),
        map_getD_of_lt (by rw [mapIdxFn_length]; exact hj),
        mapIdxFn_getD_of_lt _ _ _ hj]
      rcases hcell : (X.getD i []).getD j none with _ | v
      · have hmiss : cellAt X i j = none := by
          unfold cellAt
          exact hcell
        have hsome := hrec i j hi hj hmiss
        obtain ⟨q, hq⟩ := Option.isSome_iff_exists.mp hsome
        rw [hq]
        exact clipRound_int q
      · exact clipRound_int v

/-- Concrete instance of C2 (amended): each conjunct's hypotheses hold at
a small fitted model and matrix, and the resulting cells are integer
ratings. -/
theorem c2_witness :
    intRating (cellAt [[some 4]] 0 0)
    ∧ intRating (cellAt [[some 3]] 0 0)
    ∧ intRating (cellAt [[some 2]] 0 0)
    ∧ intRating (cellAt [[some 2]] 0 0)
    ∧ intRating (cellAt [[some 4]] 0 0) := by
  -- MeanImputationBaseline on an all-missing input
  have hobs : ¬ ((([[(some 4 : Cell)]] : Mat).flatten).filterMap id).isEmpty := by
    simp
  have hnm4 : nanMean [some (4 : ℚ)] = some 4 := by
    norm_num [nanMean, List.filterMap_cons]
  have h1 : (MeanImputationBaseline.init.fit [[some 4]]).predict [[none]]
      = .ok ([[some 4]], MeanImputationBaseline.init.fit [[some 4]]) := by
    have ht : ([[(some 4 : Cell)]] : Mat).transpose = [[some 4]] := rfl
    have hfit1 : MeanImputationBaseline.init.fit [[some 4]]
        = ⟨some 4, some [some 4], true⟩ := by
      rw [MeanImputationBaseline.fit]
      simp [ht, hnm4]
    rw [hfit1]
    norm_num [MeanImputationBaseline.predict, MeanImputationBaseline.fillCell,
      npRound, npClip, roundEven, mapIdxFn]
  have w1 := c2_amended.1 [[some 4]] [[none]] [[some 4]] _ 0 0 hobs h1
    (by decide) (by decide)
  -- EMRecommender
  have hfit : (EMRecommender.init 1 42).fit (fun X' => X'.map fun _ => 0)
      [[some 4]] = .ok
        { n_components := 1, random_state := 42,
          gmm := some (fun X' => X'.map fun _ => 0),
          cluster_means := some (EMRecommender.computeClusterMeans 1
            [[some 4]] ([[(some 4 : Cell)]].map fun _ => 0)),
          is_fitted := true } := rfl
  have hpred : (⟨1, 42, some (fun X' => X'.map fun _ => 0),
      some (EMRecommender.computeClusterMeans 1 [[some 4]]
        ([[(some 4 : Cell)]].map fun _ => 0)), true⟩ :
      EMRecommender).predict [[some 3]]
      = .ok ([[some 3]],
        ⟨1, 42, some (fun X' => X'.map fun _ => 0),
          some (EMRecommender.computeClusterMeans 1 [[some 4]]
            ([[(some 4 : Cell)]].map fun _ => 0)), true⟩) := by
    norm_num [EMRecommender.predict, mapIdxFn]
  have w2 := c2_amended.2.1 1 42 (fun X' => X'.map fun _ => 0) [[some 4]]
    _ [[some 3]] [[some 3]] _ 0 0 hfit hpred
    (by
      intro j' hj'
      have hj0 : j' = 0 := by simpa [nFeatures] using hj'
      subst hj0
      simp [colCells])
    (by
      intro X' l hl
      simp at hl
      omega)
    (by intro X'; simp)
    (by
      intro row hr
      simp at hr
      subst hr
      simp [nFeatures])
    (by
      intro row hr c hc q hq
      simp at hr
      subst hr
      simp at hc
      subst hc
      obtain rfl : (3 : ℚ) = q := by injection hq
      exact ⟨3, by norm_num, by norm_num, by norm_num⟩)
    (by decide) (by decide)
  -- KNNRecommender
  have h3 : (⟨1, "uniform", some id, true⟩ : KNNRecommender).predict
      [[some 2]] = .ok ([[some 2]], ⟨1, "uniform", some id, true⟩) := by
    norm_num [KNNRecommender.predict, npRound, npClip, roundEven]
  have w3 := c2_amended.2.2.1 _ [[some 2]] [[some 2]] _ 0 0 h3
    (by
      intro row hr c hc
      simp at hr
      subst hr
      simp at hc
      subst hc
      rfl)
    (by decide) (by decide)
  -- KNNCollaborativeRecommender
  have h4 : KNNCollaborativeRecommender.predict
      (⟨1, "uniform", some id, true⟩ : KNNCollaborativeRecommender)
      [[some 2]] = .ok ([[some 2]], ⟨1, "uniform", some id, true⟩) := by
    have ht1 : List.transpose ([[(some 2 : Cell)]]) = [[some 2]] := rfl
    norm_num [KNNCollaborativeRecommender.predict, ht1, npRound, npClip,
      roundEven]
  have w4 := c2_amended.2.2.2.1 _ [[some 2]] [[some 2]] _ 0 0 h4
    (by
      intro row hr c hc
      have hr2 : row ∈ ([[(some 2 : Cell)]] : Mat) := hr
      simp at hr2
      subst hr2
      simp at hc
      subst hc
      rfl)
    (by decide) (by decide)
  -- MatrixFactorizationRecommender
  have hR0 : (⟨1, "svd", 42, some id, some [some 4], some [some 4],
      true⟩ : MatrixFactorizationRecommender).reconstructFull [[none]]
      = [[some 4]] := by
    rw [MatrixFactorizationRecommender.reconstructFull]
    norm_num [simpleTransform, mfPreFromFilled, mfCenter, subRowVec,
      addRowVec, rowNanMeans, hnm4, cSub, cAdd, mapIdxFn]
  have h5 : (⟨1, "svd", 42, some id, some [some 4], some [some 4], true⟩ :
      MatrixFactorizationRecommender).predict [[none]]
      = .ok ([[some 4]],
          ⟨1, "svd", 42, some id, some [some 4], some [some 4], true⟩) := by
    rw [MatrixFactorizationRecommender.predict]
    norm_num [hR0, spliceMissing, cellAt, npRound, npClip, roundEven,
      mapIdxFn]
  have hR : cellAt ((⟨1, "svd", 42, some id, some [some 4], some [some 4],
      true⟩ : MatrixFactorizationRecommender).reconstructFull [[none]]) 0 0
      = some 4 := by
    rw [hR0]
    rfl
  have w5 := c2_amended.2.2.2.2 _ [[none]] [[some 4]] _ 0 0 h5
    (by
      intro p q hp hq _
      have hp0 : p = 0 := by simpa using hp
      subst hp0
      have hq0 : q = 0 := by
        rw [show (([[none]] : Mat).getD 0 []).length = 1 from rfl] at hq
        omega
      subst hq0
      rw [hR]
      rfl)
    (by decide) (by decide)
  exact ⟨w1, w2, w3, w4, w5⟩

/-! ## C4: the factorization centering uses the filled matrix's row
means, not the original data's -/

/-- C4: the claim (and spec section 4.4) says fit/predict center by each
user's row mean computed from the original possibly-missing data and that
predict adds those same means back. The code instead centers by
`np.nanmean(X_filled, axis=1)` - the row means of the DENSE-FILLED
matrix (`mfCenter`, used by `fitInput` and `reconstructFull`) - while the
original-data row means are stored in `user_mean` (conjunct two) and
never read by predict (conjunct three). At the failing input
`[[1, NaN], [5, 5]]` the two vectors differ (`[3, 5]` vs `[1, 5]`),
refuting the claim as stated. -/
theorem c4_centering_divergence :
    rowNanMeans (simpleTransform (colMeans [[some 1, none], [some 5, some 5]])
        [[some 1, none], [some 5, some 5]])
      ≠ rowNanMeans [[some 1, none], [some 5, some 5]]
    ∧ ((MatrixFactorizationRecommender.init 2 "svd" 42).fit id
        [[some 1, none], [some 5, some 5]]).user_mean
      = some (rowNanMeans [[some 1, none], [some 5, some 5]])
    ∧ ∀ (m : MatrixFactorizationRecommender) (um : Option (List Cell))
        (X : Mat),
      (MatrixFactorizationRecommender.predict { m with user_mean := um }
          X).map Prod.fst
        = (m.predict X).map Prod.fst := by
  have ht : ([[some 1, none], [some 5, some 5]] : Mat).transpose
      = [[some 1, some 5], [none, some 5]] := rfl
  have hL : rowNanMeans (simpleTransform
      (colMeans [[some 1, none], [some 5, some 5]])
      [[some 1, none], [some 5, some 5]]) = [some 3, some 5] := by
    rw [colMeans, ht]
    norm_num [rowNanMeans, simpleTransform, nanMean, List.filterMap_cons,
      mapIdxFn]
  have hRm : rowNanMeans [[some 1, none], [some 5, some 5]]
      = [some 1, some 5] := by
    norm_num [rowNanMeans, nanMean, List.filterMap_cons]
  refine ⟨?_, ?_, ?_⟩
  · rw [hL, hRm]
    intro h
    rw [List.cons.injEq] at h
    have h1 := h.1
    simp at h1
  · rfl
  · intro m um X
    rw [MatrixFactorizationRecommender.predict,
      MatrixFactorizationRecommender.predict]
    dsimp only
    by_cases hf : m.is_fitted = false
    · rw [if_pos hf, if_pos hf]
    · rw [if_neg hf, if_neg hf]
      rfl

/-! ## C5: the literal 3x3 baseline scenario -/

/-- Ground truth of the spec's literal 3x3 scenario. -/
def toyComplete : Mat :=
  [[some 5, some 3, some 2], [some 3, some 5, some 4],
   [some 4, some 1, some 4]]

/-- The observed matrix: (user1,item3) and (user3,item2) are missing. -/
def toyObserved : Mat :=
  [[some 5, some 3, none], [some 3, some 5, some 4],
   [some 4, none, some 4]]

/-- Keep, from `pred`, only the positions originally missing in `obs`
(everything else becomes missing). This lets the claim's "scoring only
the two originally-missing cells" be expressed through the evaluator's
actual mask. -/
def restrictToMissing (obs pred : Mat) : Mat :=
  mapIdxFn (fun i row => mapIdxFn (fun j c =>
    match c with
    | some _ => none
    | none => cellAt pred i j) row) obs

/-- C5: on the literal scenario, the fitted baseline's column means are
all exactly 4, predict returns the stated completion, and scoring only
the two originally-missing cells yields MSE = 13/2 (hence
RMSE = sqrt(6.5)), MAE = 5/2 and R-squared = -25 over 2 cells. -/
theorem c5_toy_scenario :
    (MeanImputationBaseline.init.fit toyObserved).feature_means
        = some [some 4, some 4, some 4]
    ∧ (MeanImputationBaseline.init.fit toyObserved).predict toyObserved
        = .ok ([[some 5, some 3, some 4], [some 3, some 5, some 4],
            [some 4, some 4, some 4]],
            MeanImputationBaseline.init.fit toyObserved)
    ∧ ModelEvaluator.evaluate_model toyComplete
        (restrictToMissing toyObserved
          [[some 5, some 3, some 4], [some 3, some 5, some 4],
           [some 4, some 4, some 4]])
        "Mean Imputation"
        = .ok { model_name := "Mean Imputation", mse := 13/2, mae := 5/2,
                r2 := some (-25), n_predictions := 2 } := by
  have ht : toyObserved.transpose
      = [[some 5, some 3, some 4], [some 3, some 5, none],
         [none, some 4, some 4]] := rfl
  have hc0 : nanMean [some (5 : ℚ), some 3, some 4] = some 4 := by
    norm_num [nanMean, List.filterMap_cons]
  have hc1 : nanMean [some (3 : ℚ), some 5, none] = some 4 := by
    norm_num [nanMean, List.filterMap_cons]
  have hc2 : nanMean [none, some (4 : ℚ), some 4] = some 4 := by
    norm_num [nanMean, List.filterMap_cons]
  have hgm : nanMean toyObserved.flatten = some 4 := by
    norm_num [toyObserved, nanMean, List.filterMap_cons]
  have hfit : MeanImputationBaseline.init.fit toyObserved
      = ⟨some 4, some [some 4, some 4, some 4], true⟩ := by
    rw [MeanImputationBaseline.fit, ht]
    simp [hc0, hc1, hc2, hgm]
  have hrest : restrictToMissing toyObserved
      [[some 5, some 3, some 4], [some 3, some 5, some 4],
       [some 4, some 4, some 4]]
      = [[none, none, some 4], [none, none, none],
         [none, some 4, none]] := rfl
  have hcp : cleanPairs toyComplete
      [[none, none, some 4], [none, none, none], [none, some 4, none]]
      = [(2, 4), (1, 4)] := rfl
  refine ⟨?_, ?_, ?_⟩
  · rw [hfit]
  · rw [hfit]
    norm_num [MeanImputationBaseline.predict, MeanImputationBaseline.fillCell,
      toyObserved, npRound, npClip, roundEven, mapIdxFn]
  · rw [hrest, ModelEvaluator.evaluate_model, hcp]
    norm_num [r2Score]

/-! ## C3: failure isolation and ranking in the comparison runner -/

theorem rmseLe_trans (a b c : CompRecord) (h1 : rmseLe a b) (h2 : rmseLe b c) :
    rmseLe a c := by
  simp only [rmseLe, decide_eq_true_eq] at *
  exact le_trans h1 h2

theorem rmseLe_total (a b : CompRecord) : rmseLe a b || rmseLe b a := by
  simp only [rmseLe, Bool.or_eq_true, decide_eq_true_eq]
  exact le_total a.rmse b.rmse

/-- C3: the comparison loop records one result per model - isolating
each failure as the infinite-sentinel record and keeping successes -
then the final ranking drops every infinite-rmse sentinel and sorts the
survivors ascending by rmse; when every model fails the result is empty
instead of an exception. -/
theorem c3_comparison_isolation
    (jobs : List (String × Except String (ℚ × ℚ × ℚ))) :
    (comparisonResults jobs).length = jobs.length
    ∧ (∀ (i : ℕ) (name e : String), jobs[i]? = some (name, .error e) →
        (comparisonResults jobs)[i]? = some (sentinelRecord name e))
    ∧ (∀ (i : ℕ) (name : String) (v : ℚ × ℚ × ℚ),
        jobs[i]? = some (name, .ok v) →
        (comparisonResults jobs)[i]?
          = some (successRecord name v.1 v.2.1 v.2.2))
    ∧ List.Sorted (fun a b : CompRecord => a.rmse ≤ b.rmse)
        (run_baseline_comparison jobs)
    ∧ (∀ r ∈ run_baseline_comparison jobs, r.rmse ≠ ⊤)
    ∧ (run_baseline_comparison jobs).Perm
        ((comparisonResults jobs).filter fun r => decide (r.rmse ≠ ⊤))
    ∧ ((∀ job ∈ jobs, ∃ e, job.2 = .error e) →
        run_baseline_comparison jobs = []) := by
  refine ⟨by simp [comparisonResults], ?_, ?_, ?_, ?_, ?_, ?_⟩
  · intro i name e h
    simp [comparisonResults, List.getElem?_map, h, sentinelRecord]
  · intro i name v h
    simp [comparisonResults, List.getElem?_map, h, successRecord]
  · rw [run_baseline_comparison]
    split
    · exact List.sorted_nil
    · have hp := List.sorted_mergeSort rmseLe_trans rmseLe_total
        ((comparisonResults jobs).filter fun r => decide (r.rmse ≠ ⊤))
      exact hp.imp fun h => by simpa [rmseLe, decide_eq_true_eq] using h
  · intro r hr
    rw [run_baseline_comparison] at hr
    split at hr
    · simp at hr
    · rw [List.mem_mergeSort] at hr
      have := List.of_mem_filter hr
      simpa using this
  · rw [run_baseline_comparison]
    split
    · rename_i hemp
      rw [List.isEmpty_iff] at hemp
      rw [hemp]
    · exact List.mergeSort_perm _ _
  · intro hall
    have hfil : (comparisonResults jobs).filter
        (fun r => decide (r.rmse ≠ ⊤)) = [] := by
      rw [List.filter_eq_nil_iff]
      intro r hr
      rw [comparisonResults, List.mem_map] at hr
      obtain ⟨job, hjob, rfl⟩ := hr
      obtain ⟨e, he⟩ := hall job hjob
      rw [he]
      simp [sentinelRecord]
    rw [run_baseline_comparison, hfil]
    rfl

/-- Concrete instance of C3: a mixed success/failure job list records
the sentinel for the failure and the metrics for the success, and an
all-failing list ranks to the empty table. -/
theorem c3_witness :
    (comparisonResults [("A", Except.ok ((1 : ℚ), (2 : ℚ), (3 : ℚ))),
        ("B", Except.error "boom")])[1]?
      = some (sentinelRecord "B" "boom")
    ∧ (comparisonResults [("A", Except.ok ((1 : ℚ), (2 : ℚ), (3 : ℚ))),
        ("B", Except.error "boom")])[0]?
      = some (successRecord "A" 1 2 3)
    ∧ run_baseline_comparison [("C", Except.error "x")] = [] := by
  refine ⟨(c3_comparison_isolation _).2.1 1 "B" "boom" rfl,
    (c3_comparison_isolation _).2.2.1 0 "A" (1, 2, 3) rfl,
    (c3_comparison_isolation _).2.2.2.2.2.2 ?_⟩
  intro job hj
  simp only [List.mem_singleton] at hj
  subst hj
  exact ⟨"x", rfl⟩

/-! ## C10: compare_models rounds to 4 decimals before sorting -/

theorem rowRmseLe_trans (a b c : ResultRow) (h1 : rowRmseLe a b)
    (h2 : rowRmseLe b c) : rowRmseLe a c := by
  simp only [rowRmseLe, decide_eq_true_eq] at *
  exact le_trans h1 h2

theorem rowRmseLe_total (a b : ResultRow) : rowRmseLe a b || rowRmseLe b a := by
  simp only [rowRmseLe, Bool.or_eq_true, decide_eq_true_eq]
  exact le_total a.rmse b.rmse

/-- C10: `compare_models` first rounds every metric to 4 decimals and
then sorts by the rounded rmse column - the output is the rounded rows
in ascending rounded-rmse order - and two rows whose true rmse values
differ by less than 5e-5 can round to the same key and then keep their
input order, here returned with the larger true rmse first. -/
theorem c10_compare_models_rounds :
    (∀ rs : List ResultRow,
      (ModelEvaluator.compare_models rs).Perm (rs.map ResultRow.round4Row)
      ∧ List.Sorted (fun a b : ResultRow => a.rmse ≤ b.rmse)
          (ModelEvaluator.compare_models rs))
    ∧ (⟨"B", 123405/1000000, 0, 0⟩ : ResultRow).rmse
        < (⟨"A", 12344/100000, 0, 0⟩ : ResultRow).rmse
    ∧ (⟨"A", 12344/100000, 0, 0⟩ : ResultRow).rmse
        - (⟨"B", 123405/1000000, 0, 0⟩ : ResultRow).rmse < 5/100000
    ∧ round4 ((12344 : ℚ)/100000) = round4 ((123405 : ℚ)/1000000)
    ∧ ModelEvaluator.compare_models
        [⟨"A", 12344/100000, 0, 0⟩, ⟨"B", 123405/1000000, 0, 0⟩]
      = [ResultRow.round4Row ⟨"A", 12344/100000, 0, 0⟩,
         ResultRow.round4Row ⟨"B", 123405/1000000, 0, 0⟩] := by
  have hra : round4 ((12344 : ℚ)/100000) = 1234/10000 := by
    norm_num [round4, roundEven]
  have hrb : round4 ((123405 : ℚ)/1000000) = 1234/10000 := by
    norm_num [round4, roundEven]
  refine ⟨?_, by norm_num, by norm_num, by rw [hra, hrb], ?_⟩
  · intro rs
    constructor
    · rw [ModelEvaluator.compare_models]
      exact List.mergeSort_perm _ _
    · rw [ModelEvaluator.compare_models]
      have hp := List.sorted_mergeSort rowRmseLe_trans rowRmseLe_total
        (rs.map ResultRow.round4Row)
      exact hp.imp fun h => by simpa [rowRmseLe, decide_eq_true_eq] using h
  · rw [ModelEvaluator.compare_models]
    have hmap : ([⟨"A", 12344/100000, 0, 0⟩,
        ⟨"B", 123405/1000000, 0, 0⟩] : List ResultRow).map
        ResultRow.round4Row
        = [ResultRow.round4Row ⟨"A", 12344/100000, 0, 0⟩,
           ResultRow.round4Row ⟨"B", 123405/1000000, 0, 0⟩] := rfl
    rw [hmap]
    have hsorted : List.Pairwise
        (fun a b : ResultRow => rowRmseLe a b = true)
        [ResultRow.round4Row ⟨"A", 12344/100000, 0, 0⟩,
         ResultRow.round4Row ⟨"B", 123405/1000000, 0, 0⟩] := by
      simp [List.pairwise_cons, rowRmseLe, ResultRow.round4Row, hra, hrb]
    exact List.mergeSort_of_sorted hsorted
